import Mathlib

/- Verification of libskiller (src/lib.rs): a shallow embedding of the
Skiller Pro+ keyboard protocol encoder and device-session constructor.
Bytes are modelled as `Nat` (all values written by the code fit in a u8);
fallible USB calls are modelled with `Except UsbError`. -/

namespace Libskiller

/-- Errors reported by the underlying USB stack (`rusb::Error`). The library
never inspects them, only propagates them with `?`, so an opaque numeric code
suffices. -/
inductive UsbError where
  | usbError (code : Nat)
deriving DecidableEq

/-- Embeds `const INTERFACE: u8 = 1`. -/
def INTERFACE : Nat := 1

/-- Embeds `const VID: u16 = 0x04d9`. -/
def VID : Nat := 0x04d9

/-- Embeds `const PID: u16 = 0xa096`. -/
def PID : Nat := 0xa096

/-- Embeds `enum Color`. -/
inductive Color where
  | Red
  | Green
  | Blue
  | Purple
  | Cyan
  | Yellow
  | White
deriving DecidableEq

/-- Embeds `impl ToSkillerBytes for Color`. -/
def Color.to_skiller_bytes : Color → Nat
  | .Red => 0
  | .Green => 1
  | .Blue => 2
  | .Purple => 3
  | .Cyan => 4
  | .Yellow => 5
  | .White => 6

/-- Embeds `enum Profile`. -/
inductive Profile where
  | P1
  | P2
  | P3
deriving DecidableEq

/-- Embeds `impl ToSkillerBytes for Profile`. -/
def Profile.to_skiller_bytes : Profile → Nat
  | .P1 => 1
  | .P2 => 2
  | .P3 => 3

/-- Embeds `enum Brightness`; `level` is the u8 field of `Static`. -/
inductive Brightness where
  | Static (level : Nat) (color : Color)
  | Pulsating (color : Color)
  | Cycle
deriving DecidableEq

/-- Embeds `enum PollingRate`. -/
inductive PollingRate where
  | HZ125
  | HZ250
  | HZ500
  | HZ1000
deriving DecidableEq

/-- Embeds `impl ToSkillerBytes for PollingRate`. -/
def PollingRate.to_skiller_bytes : PollingRate → Nat
  | .HZ125 => 8
  | .HZ250 => 4
  | .HZ500 => 2
  | .HZ1000 => 1

/-- Embeds `impl ToSkillerBytes for bool` (note the inversion in the source). -/
def boolToSkillerBytes : Bool → Nat
  | true => 0
  | false => 1

/-- Embeds `fn switch_profile(profile: u8) -> [u8; 8]`. -/
def switch_profile (profile : Nat) : List Nat :=
  [0x07, 0x02, profile, 0x00, 0x00, 0x00, 0x00, 0x00]

/-- The `payload` array built inside `set_color`, with `p` the profile byte. -/
def color_payload (color : Color) (p : Nat) : List Nat :=
  [0x07, 0x0a, p, 0x0a, 0x04, 0x00, color.to_skiller_bytes, 0x00]

/-- The `payload` array built inside `set_brightness` (the `match brightness`
arms), with `p` the profile byte. -/
def brightness_payload (brightness : Brightness) (p : Nat) : List Nat :=
  match brightness with
  | .Static level color =>
      [0x07, 0x0a, p, level, 0x04, 0x00, color.to_skiller_bytes, 0x00]
  | .Pulsating color =>
      [0x07, 0x0a, p, 11, 0x04, 0x00, color.to_skiller_bytes, 0x00]
  | .Cycle => [0x07, 0x0a, p, 12, 0x04, 0x00, 0x00, 0x00]

/-- The frame built inline by `set_polling_rate`. -/
def polling_rate_frame (rate : PollingRate) : List Nat :=
  [0x07, 0x01, rate.to_skiller_bytes, 0x00, 0x00, 0x00, 0x00, 0x00]

/-- The `payload` array built inside `set_win_key`, with `p` the profile byte
and the flag byte coming from `enable.to_skiller_bytes()`. -/
def win_key_payload (enable : Bool) (p : Nat) : List Nat :=
  [0x07, 0x0b, p, boolToSkillerBytes enable, 0x00, 0x00, 0x00, 0x00]

/-- The five public setting operations of `SkillerProPlus`, with their
arguments. -/
inductive Operation where
  | setColor (color : Color) (profile : Profile)
  | setProfile (profile : Profile)
  | setBrightness (brightness : Brightness) (profile : Profile)
  | setPollingRate (rate : PollingRate)
  | setWinKey (enable : Bool) (profile : Profile)
deriving DecidableEq

/-- The sequence of 8-byte frames an operation passes to `skiller_write`, in
program order (read off each method body in src/lib.rs). -/
def Operation.frames : Operation → List (List Nat)
  | .setColor color profile =>
      [switch_profile profile.to_skiller_bytes,
       color_payload color profile.to_skiller_bytes]
  | .setProfile profile => [switch_profile profile.to_skiller_bytes]
  | .setBrightness brightness profile =>
      [switch_profile profile.to_skiller_bytes,
       brightness_payload brightness profile.to_skiller_bytes]
  | .setPollingRate rate => [polling_rate_frame rate]
  | .setWinKey enable profile => [win_key_payload enable profile.to_skiller_bytes]

/-- The byte of a frame at a given offset (frames are always 8 bytes long, so
the default is never taken on the frames built above). -/
def byteAt (f : List Nat) (i : Nat) : Nat := f.getD i 0

/-- Outcome of the k-th `skiller_write` (i.e. `write_control`) call issued by
one operation: bytes written, or a USB error. -/
def WriteOracle := Nat → Except UsbError Nat

/-- Stateful embedding of `set_color`: the frames actually handed to
`skiller_write` in order (stopping at the first failing write, whose error `?`
propagates) together with the returned `rusb::Result<usize>`
(`Ok(total_written)` on success). -/
def set_color_run (o : WriteOracle) (color : Color) (profile : Profile) :
    List (List Nat) × Except UsbError Nat :=
  let p := profile.to_skiller_bytes
  match o 0 with
  | .error e => ([switch_profile p], .error e)
  | .ok n1 =>
    match o 1 with
    | .error e => ([switch_profile p, color_payload color p], .error e)
    | .ok n2 => ([switch_profile p, color_payload color p], .ok (n1 + n2))

/-- Stateful embedding of `set_brightness`, mirroring `set_color_run`. -/
def set_brightness_run (o : WriteOracle) (brightness : Brightness)
    (profile : Profile) : List (List Nat) × Except UsbError Nat :=
  let p := profile.to_skiller_bytes
  match o 0 with
  | .error e => ([switch_profile p], .error e)
  | .ok n1 =>
    match o 1 with
    | .error e => ([switch_profile p, brightness_payload brightness p], .error e)
    | .ok n2 => ([switch_profile p, brightness_payload brightness p], .ok (n1 + n2))

/-- The fields of a USB device descriptor that `new` reads. -/
structure DeviceDescriptor where
  vendor_id : Nat
  product_id : Nat
deriving DecidableEq

/-- An open device handle as `new` sees it: the outcomes of the two
kernel-driver calls made on it. -/
structure HandleModel where
  kernel_driver_active : Except UsbError Bool
  detach_kernel_driver : Except UsbError Unit

/-- A USB device on the bus as `new` sees it: the outcome of
`device.device_descriptor()` and of `device.open()`. -/
structure DeviceModel where
  device_descriptor : Except UsbError DeviceDescriptor
  open_device : Except UsbError HandleModel

/-- Embeds `pub struct SkillerProPlus { handle, timeout }`. -/
structure SkillerProPlus where
  handle : HandleModel
  timeout : Nat

/-- The `for device in devices.iter()` loop of `SkillerProPlus::new`,
including the trailing `return Ok(None)`. -/
def newLoop (timeout : Nat) : List DeviceModel → Except UsbError (Option SkillerProPlus)
  | [] => .ok none
  | device :: rest =>
    match device.device_descriptor with
    | .error e => .error e
    | .ok desc =>
      if desc.vendor_id ≠ VID ∨ desc.product_id ≠ PID then
        newLoop timeout rest
      else
        match device.open_device with
        | .error e => .error e
        | .ok handle =>
          match handle.kernel_driver_active with
          | .error e => .error e
          | .ok active =>
            if active then
              match handle.detach_kernel_driver with
              | .error e => .error e
              | .ok _ => .ok (some ⟨handle, timeout⟩)
            else .ok (some ⟨handle, timeout⟩)

/-- Embeds `SkillerProPlus::new`: `Context::new()?`, `context.devices()?`,
then the enumeration loop. The outcomes of the two context calls and the
enumerated device list are the model's inputs. -/
def SkillerProPlus.new (context_new : Except UsbError Unit)
    (devices : Except UsbError (List DeviceModel)) (timeout : Nat) :
    Except UsbError (Option SkillerProPlus) :=
  match context_new with
  | .error e => .error e
  | .ok _ =>
    match devices with
    | .error e => .error e
    | .ok ds => newLoop timeout ds

/-- The reading of the spec's offset-3 table row that claim C1 asserts: in
every emitted frame, the byte at offset 3 is the brightness level of a Static
brightness frame, the win-key flag, or 0. -/
def offset3SpecClaim (op : Operation) (f : List Nat) : Prop :=
  byteAt f 3 = 0
  ∨ (∃ e p, op = .setWinKey e p ∧ byteAt f 3 = boolToSkillerBytes e)
  ∨ (∃ l c p, op = .setBrightness (.Static l c) p ∧ byteAt f 3 = l)

/-- C1 counterexample: the color-assignment frame emitted by
`set_color(Red, P1)` carries 0x0a = 10 at byte offset 3, which is neither 0
nor a win-key flag nor the level of a Static brightness frame, so the
claimed offset-3 reading fails on `set_color`. -/
theorem offset3_claim_false :
    color_payload .Red 1 ∈ (Operation.setColor .Red .P1).frames ∧
    ¬ offset3SpecClaim (.setColor .Red .P1) (color_payload .Red 1) := by
  refine ⟨by simp [Operation.frames, Profile.to_skiller_bytes], ?_⟩
  intro h
  rcases h with h | ⟨e, p, hop, _⟩ | ⟨l, c, p, hop, _⟩
  · simp [color_payload, byteAt, Color.to_skiller_bytes] at h
  · exact Operation.noConfusion hop
  · exact Operation.noConfusion hop

/-- C1 amended: in every frame emitted by any setting operation, the byte at
offset 3 is 0, the win-key flag, the Static brightness level, the constant 10
in color-assignment frames, the sentinel 11 in Pulsating frames, or the
sentinel 12 in Cycle frames — no other value ever appears at offset 3. -/
theorem offset3_values (op : Operation) (f : List Nat) (hf : f ∈ op.frames) :
    byteAt f 3 = 0
    ∨ (∃ e p, op = .setWinKey e p ∧ byteAt f 3 = boolToSkillerBytes e)
    ∨ (∃ l c p, op = .setBrightness (.Static l c) p ∧ byteAt f 3 = l)
    ∨ (∃ c p, op = .setColor c p ∧ byteAt f 3 = 10)
    ∨ (∃ c p, op = .setBrightness (.Pulsating c) p ∧ byteAt f 3 = 11)
    ∨ (∃ p, op = .setBrightness .Cycle p ∧ byteAt f 3 = 12) := by
  cases op with
  | setColor color profile =>
    simp only [Operation.frames, List.mem_cons, List.not_mem_nil, or_false] at hf
    rcases hf with rfl | rfl
    · exact Or.inl rfl
    · exact Or.inr (Or.inr (Or.inr (Or.inl ⟨color, profile, rfl, rfl⟩)))
  | setProfile profile =>
    simp only [Operation.frames, List.mem_cons, List.not_mem_nil, or_false] at hf
    subst hf
    exact Or.inl rfl
  | setBrightness brightness profile =>
    simp only [Operation.frames, List.mem_cons, List.not_mem_nil, or_false] at hf
    rcases hf with rfl | rfl
    · exact Or.inl rfl
    · cases brightness with
      | Static level color =>
        exact Or.inr (Or.inr (Or.inl ⟨level, color, profile, rfl, rfl⟩))
      | Pulsating color =>
        exact Or.inr (Or.inr (Or.inr (Or.inr (Or.inl ⟨color, profile, rfl, rfl⟩))))
      | Cycle =>
        exact Or.inr (Or.inr (Or.inr (Or.inr (Or.inr ⟨profile, rfl, rfl⟩))))
  | setPollingRate rate =>
    simp only [Operation.frames, List.mem_cons, List.not_mem_nil, or_false] at hf
    subst hf
    exact Or.inl rfl
  | setWinKey enable profile =>
    simp only [Operation.frames, List.mem_cons, List.not_mem_nil, or_false] at hf
    subst hf
    exact Or.inr (Or.inl ⟨enable, profile, rfl, rfl⟩)

/-- Witness for `offset3_values` at the concrete operation
`set_profile(P1)` and its single emitted frame. -/
theorem offset3_values_witness :
    byteAt (switch_profile 1) 3 = 0
    ∨ (∃ e p, Operation.setProfile .P1 = .setWinKey e p
        ∧ byteAt (switch_profile 1) 3 = boolToSkillerBytes e)
    ∨ (∃ l c p, Operation.setProfile .P1 = .setBrightness (.Static l c) p
        ∧ byteAt (switch_profile 1) 3 = l)
    ∨ (∃ c p, Operation.setProfile .P1 = .setColor c p
        ∧ byteAt (switch_profile 1) 3 = 10)
    ∨ (∃ c p, Operation.setProfile .P1 = .setBrightness (.Pulsating c) p
        ∧ byteAt (switch_profile 1) 3 = 11)
    ∨ (∃ p, Operation.setProfile .P1 = .setBrightness .Cycle p
        ∧ byteAt (switch_profile 1) 3 = 12) :=
  offset3_values (.setProfile .P1) (switch_profile 1)
    (by simp [Operation.frames, Profile.to_skiller_bytes])

/-- C2: every frame emitted by every operation is exactly 8 bytes long and its
first byte (offset 0) is 0x07. -/
theorem frames_len8_header7 (op : Operation) (f : List Nat) (hf : f ∈ op.frames) :
    f.length = 8 ∧ byteAt f 0 = 0x07 := by
  cases op with
  | setColor color profile =>
    simp only [Operation.frames, List.mem_cons, List.not_mem_nil, or_false] at hf
    rcases hf with rfl | rfl
    · exact ⟨rfl, rfl⟩
    · exact ⟨rfl, rfl⟩
  | setProfile profile =>
    simp only [Operation.frames, List.mem_cons, List.not_mem_nil, or_false] at hf
    subst hf
    exact ⟨rfl, rfl⟩
  | setBrightness brightness profile =>
    simp only [Operation.frames, List.mem_cons, List.not_mem_nil, or_false] at hf
    rcases hf with rfl | rfl
    · exact ⟨rfl, rfl⟩
    · cases brightness <;> exact ⟨rfl, rfl⟩
  | setPollingRate rate =>
    simp only [Operation.frames, List.mem_cons, List.not_mem_nil, or_false] at hf
    subst hf
    exact ⟨rfl, rfl⟩
  | setWinKey enable profile =>
    simp only [Operation.frames, List.mem_cons, List.not_mem_nil, or_false] at hf
    subst hf
    exact ⟨rfl, rfl⟩

/-- Witness for `frames_len8_header7` at `set_profile(P1)` and its single
emitted frame. -/
theorem frames_len8_header7_witness :
    (switch_profile 1).length = 8 ∧ byteAt (switch_profile 1) 0 = 0x07 :=
  frames_len8_header7 (.setProfile .P1) (switch_profile 1)
    (by simp [Operation.frames, Profile.to_skiller_bytes])

/-- C3: when context creation and device enumeration succeed and every
enumerated device's descriptor reads successfully with a VID/PID not matching
0x04d9/0xa096, `new` returns `Ok(None)` — the device-absent case is not an
error; an `Err` can only arise from a failing lower-level USB call. -/
theorem new_no_match_ok_none (ds : List DeviceModel) (timeout : Nat)
    (h : ∀ d ∈ ds, ∃ desc, d.device_descriptor = .ok desc ∧
        (desc.vendor_id ≠ VID ∨ desc.product_id ≠ PID)) :
    SkillerProPlus.new (.ok ()) (.ok ds) timeout = .ok none := by
  induction ds with
  | nil => rfl
  | cons d rest ih =>
    obtain ⟨desc, hdesc, hmm⟩ := h d (List.mem_cons_self d rest)
    have hrest : SkillerProPlus.new (.ok ()) (.ok rest) timeout = .ok none :=
      ih (fun x hx => h x (List.mem_cons_of_mem d hx))
    show newLoop timeout (d :: rest) = .ok none
    rw [newLoop, hdesc]
    simp only [if_pos hmm]
    exact hrest

/-- Witness for `new_no_match_ok_none`: a bus holding one device with a
non-matching descriptor. -/
theorem new_no_match_ok_none_witness :
    SkillerProPlus.new (.ok ())
      (.ok [⟨.ok ⟨0x046d, 0xc534⟩, .error (.usbError 0)⟩]) 2000 = .ok none :=
  new_no_match_ok_none [⟨.ok ⟨0x046d, 0xc534⟩, .error (.usbError 0)⟩] 2000
    (by
      intro d hd
      simp only [List.mem_singleton] at hd
      subst hd
      exact ⟨⟨0x046d, 0xc534⟩, rfl, by decide⟩)

/-- C4: `set_color` and `set_brightness` hand exactly two frames to
`skiller_write`, the profile-switch frame then the payload frame, whenever the
first write succeeds; and when the first write fails, only the profile-switch
frame was attempted and its error is the returned result. -/
theorem two_writes_first_failure_aborts (o : WriteOracle) (color : Color)
    (brightness : Brightness) (profile : Profile) :
    (∀ e, o 0 = .error e →
        set_color_run o color profile
          = ([switch_profile profile.to_skiller_bytes], .error e)
        ∧ set_brightness_run o brightness profile
          = ([switch_profile profile.to_skiller_bytes], .error e))
    ∧ (∀ n, o 0 = .ok n →
        (set_color_run o color profile).1
          = [switch_profile profile.to_skiller_bytes,
             color_payload color profile.to_skiller_bytes]
        ∧ (set_brightness_run o brightness profile).1
          = [switch_profile profile.to_skiller_bytes,
             brightness_payload brightness profile.to_skiller_bytes]) := by
  constructor
  · intro e he
    constructor
    · simp [set_color_run, he]
    · simp [set_brightness_run, he]
  · intro n hn
    constructor
    · cases h1 : o 1 <;> simp [set_color_run, hn, h1]
    · cases h1 : o 1 <;> simp [set_brightness_run, hn, h1]

/-- Witness for `two_writes_first_failure_aborts`: with an oracle whose first
write fails with error code 7, `set_color(Red, P1)` attempts only the
profile-switch frame and returns that error. -/
theorem two_writes_first_failure_aborts_witness :
    set_color_run (fun _ => .error (.usbError 7)) .Red .P1
      = ([switch_profile 1], .error (.usbError 7)) :=
  (((two_writes_first_failure_aborts (fun _ => .error (.usbError 7))
      .Red .Cycle .P1).1 (.usbError 7)) rfl).1

/-- C5: `set_color(Blue, P2)` emits exactly the profile-switch frame
[7,2,2,0,0,0,0,0] followed by the color-assignment frame [7,10,2,10,4,0,2,0]. -/
theorem set_color_blue_p2_frames :
    (Operation.setColor .Blue .P2).frames
      = [[7, 2, 2, 0, 0, 0, 0, 0], [7, 10, 2, 10, 4, 0, 2, 0]] := by
  decide

/-- C6: the payload frame of `set_brightness` carries at offset 3 the explicit
level for Static, 11 for Pulsating and 12 for Cycle, Cycle's color byte
(offset 6) is 0, and `set_brightness(Static{level:50,color:Red}, P1)` emits
payload frame [7,10,1,50,4,0,0,0]. -/
theorem brightness_payload_offset3 (profile : Profile) (level : Nat) (color : Color) :
    byteAt ((Operation.setBrightness (.Static level color) profile).frames.getD 1 []) 3
      = level
    ∧ byteAt ((Operation.setBrightness (.Pulsating color) profile).frames.getD 1 []) 3
      = 11
    ∧ byteAt ((Operation.setBrightness .Cycle profile).frames.getD 1 []) 3 = 12
    ∧ byteAt ((Operation.setBrightness .Cycle profile).frames.getD 1 []) 6 = 0
    ∧ (Operation.setBrightness (.Static 50 .Red) .P1).frames.getD 1 []
      = [7, 10, 1, 50, 4, 0, 0, 0] := by
  exact ⟨rfl, rfl, rfl, rfl, by decide⟩

/-- C7: the polling-rate encoder maps HZ125→8, HZ250→4, HZ500→2, HZ1000→1,
and `set_polling_rate` emits the single frame with command-type byte 0x01 at
offset 1 and the rate code at offset 2. -/
theorem polling_rate_encoding :
    PollingRate.to_skiller_bytes .HZ125 = 8
    ∧ PollingRate.to_skiller_bytes .HZ250 = 4
    ∧ PollingRate.to_skiller_bytes .HZ500 = 2
    ∧ PollingRate.to_skiller_bytes .HZ1000 = 1
    ∧ ∀ rate : PollingRate, (Operation.setPollingRate rate).frames
        = [[0x07, 0x01, rate.to_skiller_bytes, 0, 0, 0, 0, 0]] := by
  refine ⟨rfl, rfl, rfl, rfl, ?_⟩
  intro rate
  cases rate <;> rfl

/-- C8: `set_win_key` emits exactly one frame with command-type byte 0x0b at
offset 1 and the inverted boolean at offset 3: true encodes 0 and false
encodes 1. -/
theorem win_key_encoding :
    boolToSkillerBytes true = 0
    ∧ boolToSkillerBytes false = 1
    ∧ ∀ (enable : Bool) (profile : Profile),
        (Operation.setWinKey enable profile).frames
          = [[0x07, 0x0b, profile.to_skiller_bytes, boolToSkillerBytes enable,
              0, 0, 0, 0]] := by
  refine ⟨rfl, rfl, ?_⟩
  intro enable profile
  rfl

/-- C9: for every profile, the single frame of `set_profile` equals the first
frame of `set_color` and of `set_brightness`, namely
[0x07, 0x02, code(p), 0, 0, 0, 0, 0]. -/
theorem profile_frame_shared (profile : Profile) (color : Color)
    (brightness : Brightness) :
    (Operation.setProfile profile).frames
      = [[0x07, 0x02, profile.to_skiller_bytes, 0, 0, 0, 0, 0]]
    ∧ (Operation.setColor color profile).frames.getD 0 []
      = [0x07, 0x02, profile.to_skiller_bytes, 0, 0, 0, 0, 0]
    ∧ (Operation.setBrightness brightness profile).frames.getD 0 []
      = [0x07, 0x02, profile.to_skiller_bytes, 0, 0, 0, 0, 0] :=
  ⟨rfl, rfl, rfl⟩

/-- C10: `new` reads each device's descriptor before the VID/PID check and
propagates a descriptor-read failure with `?`: if every device enumerated
before some device reads a non-matching descriptor successfully and that
device's descriptor read fails, `new` returns that error instead of
continuing to later devices. -/
theorem new_descriptor_error_propagates (pre : List DeviceModel)
    (d : DeviceModel) (post : List DeviceModel) (timeout : Nat) (e : UsbError)
    (hpre : ∀ x ∈ pre, ∃ desc, x.device_descriptor = .ok desc ∧
        (desc.vendor_id ≠ VID ∨ desc.product_id ≠ PID))
    (hd : d.device_descriptor = .error e) :
    SkillerProPlus.new (.ok ()) (.ok (pre ++ d :: post)) timeout = .error e := by
  induction pre with
  | nil =>
    show newLoop timeout (d :: post) = .error e
    rw [newLoop, hd]
  | cons x rest ih =>
    obtain ⟨desc, hdesc, hmm⟩ := hpre x (List.mem_cons_self x rest)
    have hrest : SkillerProPlus.new (.ok ()) (.ok (rest ++ d :: post)) timeout
        = .error e :=
      ih (fun y hy => hpre y (List.mem_cons_of_mem x hy))
    show newLoop timeout (x :: (rest ++ d :: post)) = .error e
    rw [newLoop, hdesc]
    simp only [if_pos hmm]
    exact hrest

/-- Witness for `new_descriptor_error_propagates`: a bus whose first device is
an unrelated non-matching device and whose second device's descriptor read
fails with error code 13; `new` returns that error. -/
theorem new_descriptor_error_propagates_witness :
    SkillerProPlus.new (.ok ())
      (.ok [⟨.ok ⟨0x046d, 0xc534⟩, .error (.usbError 0)⟩,
            ⟨.error (.usbError 13), .error (.usbError 0)⟩,
            ⟨.ok ⟨VID, PID⟩, .error (.usbError 0)⟩]) 2000
      = .error (.usbError 13) :=
  new_descriptor_error_propagates [⟨.ok ⟨0x046d, 0xc534⟩, .error (.usbError 0)⟩]
    ⟨.error (.usbError 13), .error (.usbError 0)⟩
    [⟨.ok ⟨VID, PID⟩, .error (.usbError 0)⟩] 2000 (.usbError 13)
    (by
      intro x hx
      simp only [List.mem_singleton] at hx
      subst hx
      exact ⟨⟨0x046d, 0xc534⟩, rfl, by decide⟩)
    rfl

end Libskiller
